import Mathlib

/-!
Verification of the schema-adaptive DuckDB query engine
(`Project/core/duckdb_processor.py`) against its design specification.

The Python module is shallowly embedded: pure query-compilation helpers
become Lean functions over `String`/`List String`; the module-global schema
caches become an explicit state record threaded through a step function;
the streaming executor's fetch loop becomes a recursion over batches.
Strings are manipulated through their character lists so that every
definition evaluates by kernel reduction (`decide`/`rfl`).
-/

namespace RRAData

/-! ## String helpers (Python string primitives used by the module) -/

def listPrefix : List Char → List Char → Bool
  | [], _ => true
  | _ :: _, [] => false
  | a :: as, b :: bs => a == b && listPrefix as bs

def listInfix (n : List Char) : List Char → Bool
  | [] => listPrefix n []
  | c :: cs => listPrefix n (c :: cs) || listInfix n cs

/-- Python `needle in hay` on strings: substring containment. -/
def pyIn (needle hay : String) : Bool :=
  listInfix needle.data hay.data

/-- Python `s.startswith(p)`. -/
def startsWithStr (p s : String) : Bool := listPrefix p.data s.data

/-- Python `s.endswith(p)`. -/
def endsWithStr (p s : String) : Bool := listPrefix p.data.reverse s.data.reverse

/-- Python `keyword.replace('-', '').replace(' ', '')`: removing every
hyphen and space is the same as filtering them out of the characters. -/
def stripHyphenSpace (s : String) : String :=
  ⟨s.data.filter (fun c => !(c == '-') && !(c == ' '))⟩

/-- Python `s.lower()` (ASCII model; the Korean column names have no case). -/
def lowerStr (s : String) : String := ⟨s.data.map Char.toLower⟩

/-- Python `sep.join(parts)`. -/
def joinSep (sep : String) : List String → String
  | [] => ""
  | [x] => x
  | x :: y :: ys => x ++ sep ++ joinSep sep (y :: ys)

/-- A DuckDB double-quoted identifier, as the f-strings `\"{col}\"` build it. -/
def quoteId (c : String) : String := "\"" ++ c ++ "\""

def splitOnCharAux (c : Char) : List Char → List Char → List String
  | [], acc => [⟨acc.reverse⟩]
  | x :: xs, acc =>
    if x == c then ⟨acc.reverse⟩ :: splitOnCharAux c xs []
    else splitOnCharAux c xs (x :: acc)

def splitOnChar (c : Char) (s : String) : List String := splitOnCharAux c s.data []

def takeUntilChars (stops : List Char) (s : String) : String :=
  ⟨s.data.takeWhile (fun c => !(stops.contains c))⟩

/-- First candidate present in the available columns: Python's
`next((f for f in candidates if f in available_fields), None)` and the
equivalent priority-loop-with-break idiom. -/
def firstPresent (cands avail : List String) : Option String :=
  cands.find? (fun c => avail.contains c)

/-! ## `_get_search_pattern_and_operator` and `_build_where_clause` -/

inductive SqlOp
  | like
  | eq
deriving DecidableEq, BEq

/-- Fields `_get_search_pattern_and_operator` routes to exact matching. -/
def certExactFields : List String := ["cert_no", "cert_num", "declare_no", "신고번호", "승인번호"]

/-- `_get_search_pattern_and_operator`: cert/declare-number fields get the
plain keyword and `=`; everything else gets `%keyword%` and `LIKE`. -/
def getSearchPatternAndOperator (keyword field : String) : String × SqlOp :=
  if certExactFields.contains field then (keyword, .eq)
  else ("%" ++ keyword ++ "%", .like)

/-- The shapes of the conditions `_build_where_clause` emits. -/
inductive SearchCond
  | eqStripped (field : String)
  | lowerLike (field : String)
  | plain (field : String) (op : SqlOp)
deriving DecidableEq, BEq

def renderOp : SqlOp → String
  | .like => "LIKE"
  | .eq => "="

/-- The exact f-string text of each condition in `_build_where_clause`. -/
def renderSearchCond (tableAlias : String) : SearchCond → String
  | .eqStripped f =>
      "REPLACE(REPLACE(CAST(" ++ quoteId f ++ " AS VARCHAR), '-', ''), ' ', '') = ?"
  | .lowerLike f =>
      "LOWER(CAST(" ++ tableAlias ++ quoteId f ++ " AS VARCHAR)) LIKE ?"
  | .plain f op =>
      "CAST(" ++ tableAlias ++ quoteId f ++ " AS VARCHAR) " ++ renderOp op ++ " ?"

/-- The compiled search predicate: constant-true `1=1`, constant-false `1=0`,
or an OR-combination of conditions each bound to one parameter. -/
inductive WhereShape
  | anyRow
  | noRow
  | conds (cs : List (SearchCond × String))
deriving DecidableEq

/-- `exact_match_fields` of `_build_where_clause` (business-number family). -/
def exactMatchFields : List String := ["business_number", "사업자등록번호", "ftc_business_number"]

/-- The `field_aliases` list the business-number branch searches. -/
def businessAliases (searchField : String) : List String :=
  searchField ::
    (if searchField = "business_number" then ["ftc_business_number"]
     else if searchField = "ftc_business_number" then ["business_number"]
     else [])

/-- `field_mappings` of `_build_where_clause`, with the `.get` default. -/
def fieldMappings (searchField : String) : List String :=
  if searchField = "company_name" then ["업체명", "maker_name", "entrprsNm", "상호/법인명", "사업자명"]
  else if searchField = "model_name" then ["모델명", "model_name"]
  else if searchField = "product_name" then ["제품명", "product_name", "prductNm", "품목명"]
  else [searchField]

/-- The `existing_fields` computation of `_build_where_clause`: alias hits,
falling back to the raw field name when no alias is available. -/
def resolveSearchColumns (searchField : String) (avail : List String) : List String :=
  let targets := fieldMappings searchField
  let existing := targets.filter (fun f => avail.contains f)
  if existing.isEmpty then
    (if avail.contains searchField then [searchField] else [])
  else existing

/-- `_build_where_clause`, structured: the branch on an empty keyword, the
business-number exact branch (`REPLACE`-stripped equality over the alias
columns, `1=0` when none is available) and the general branch (per resolved
column, case-folded `LIKE` or the `_get_search_pattern_and_operator` result).
`ci` stands for `_is_field_case_insensitive` (configuration data). -/
def buildSearchConds (keyword searchField : String) (avail : List String)
    (ci : String → Bool) : WhereShape :=
  if keyword = "" then .anyRow
  else if exactMatchFields.contains searchField then
    let present := (businessAliases searchField).filter (fun f => avail.contains f)
    if present.isEmpty then .noRow
    else .conds (present.map (fun f => (SearchCond.eqStripped f, stripHyphenSpace keyword)))
  else
    let existing := resolveSearchColumns searchField avail
    let cs := existing.map (fun f =>
      let po := getSearchPatternAndOperator keyword f
      if ci f && (po.2 == SqlOp.like) then
        (SearchCond.lowerLike f, "%" ++ lowerStr keyword ++ "%")
      else
        (SearchCond.plain f po.2, po.1))
    if cs.isEmpty then .anyRow else .conds cs

def renderWhere (tableAlias : String) : WhereShape → String × List String
  | .anyRow => ("1=1", [])
  | .noRow => ("1=0", [])
  | .conds cs =>
      (joinSep " OR " (cs.map (fun c => renderSearchCond tableAlias c.1)), cs.map (·.2))

/-- `_build_where_clause`: the `(where_clause, parameters)` pair it returns. -/
def buildWhereClause (keyword searchField : String) (avail : List String)
    (ci : String → Bool) (tableAlias : String) : String × List String :=
  renderWhere tableAlias (buildSearchConds keyword searchField avail ci)

/-! ## Predicate semantics

A row maps physical column names to an optional (nullable) string value;
`CAST(col AS VARCHAR)` is the identity on this model and comparisons with
SQL NULL select no row. `likeMatchL` is SQL `LIKE` (with `%`/`_` wildcards),
written with a fuel argument of `|pattern| + |text| + 1`, which every
recursive path strictly decreases, so the fuel never runs out. -/

abbrev Row := List (String × Option String)

def rowGet (r : Row) (f : String) : Option String :=
  match r.find? (fun p => p.1 == f) with
  | some p => p.2
  | none => none

def likeFuel : Nat → List Char → List Char → Bool
  | 0, _, _ => false
  | _ + 1, [], [] => true
  | _ + 1, [], _ :: _ => false
  | n + 1, p :: ps, s =>
    if p == '%' then
      likeFuel n ps s ||
        (match s with
         | [] => false
         | _ :: s2 => likeFuel n (p :: ps) s2)
    else if p == '_' then
      (match s with
       | [] => false
       | _ :: s2 => likeFuel n ps s2)
    else
      (match s with
       | [] => false
       | c :: s2 => p == c && likeFuel n ps s2)

def likeMatchL (pat s : List Char) : Bool :=
  likeFuel (pat.length + s.length + 1) pat s

def evalSearchCond (row : Row) : SearchCond × String → Bool
  | (.eqStripped f, param) =>
      (match rowGet row f with
       | none => false
       | some v => stripHyphenSpace v == param)
  | (.lowerLike f, param) =>
      (match rowGet row f with
       | none => false
       | some v => likeMatchL param.data (lowerStr v).data)
  | (.plain f op, param) =>
      (match rowGet row f with
       | none => false
       | some v =>
         match op with
         | .eq => v == param
         | .like => likeMatchL param.data v.data)

def evalWhere (row : Row) : WhereShape → Bool
  | .anyRow => true
  | .noRow => false
  | .conds cs => cs.any (evalSearchCond row)

/-! ## `_build_filter_conditions` -/

/-- A bound query parameter (string-valued or numeric). -/
inductive FParam
  | s (v : String)
  | i (v : Int)
deriving DecidableEq

structure DateRangeF where
  start : Option String
  stop : Option String
deriving DecidableEq

structure NumericRangeF where
  field : Option String
  min : Option Int
  max : Option Int
deriving DecidableEq

/-- The optional entries of the `filters` dictionary. A missing entry is
`none`; a `None`/empty dictionary is `none` at the `Option FilterSet` level. -/
structure FilterSet where
  dateRange : Option DateRangeF
  certificationType : Option (List String)
  companyType : Option (List String)
  excludeKeywords : Option (List String)
  numericRange : Option NumericRangeF
deriving DecidableEq

def dateFilterColumns : List String :=
  ["인증일자", "인증변경일자", "서명일자", "인증만료일자", "완료일", "등록일자", "date", "cert_date"]

def certFilterColumns : List String :=
  ["인증번호", "certification_no", "license_no", "cert_no", "registration_no"]

def importerColumns : List String :=
  ["수입자", "importer", "import_company", "importerName", "수입업체"]

def productColumns : List String :=
  ["제품명", "product_name", "prductNm", "품목명", "기자재명칭"]

def companyColumns : List String :=
  ["업체명", "company_name", "entrprsNm", "상호/법인명", "사업자명", "maker_name"]

/-- `date_range` block: the first known date column present, `>=`/`<=` on a
`CAST(.. AS DATE)`; skipped when absent. -/
def dateFilterBlock (dr : Option DateRangeF) (tableAlias : String) (avail : List String) :
    List String × List FParam :=
  match dr with
  | none => ([], [])
  | some dr =>
    match firstPresent dateFilterColumns avail with
    | none => ([], [])
    | some col =>
      let c1 : List String × List FParam :=
        match dr.start with
        | some v => (["CAST(" ++ tableAlias ++ quoteId col ++ " AS DATE) >= ?"], [.s v])
        | none => ([], [])
      let c2 : List String × List FParam :=
        match dr.stop with
        | some v => (["CAST(" ++ tableAlias ++ quoteId col ++ " AS DATE) <= ?"], [.s v])
        | none => ([], [])
      (c1.1 ++ c2.1, c1.2 ++ c2.2)

/-- `certification_type` block: one `?` placeholder per type, values bound
as `.*type.*` regex parameters. -/
def certFilterBlock (ct : Option (List String)) (tableAlias : String) (avail : List String) :
    List String × List FParam :=
  match ct with
  | none => ([], [])
  | some certTypes =>
    if certTypes.isEmpty then ([], [])
    else
      match firstPresent certFilterColumns avail with
      | none => ([], [])
      | some col =>
        let placeholders := joinSep "," (certTypes.map (fun _ => "?"))
        (["UPPER(CAST(" ++ tableAlias ++ quoteId col ++ " AS VARCHAR)) RLIKE ANY(ARRAY[" ++
            placeholders ++ "])"],
         certTypes.map (fun t => .s (".*" ++ t ++ ".*")))

/-- `company_type` block: NULL/empty importer column for manufacturers,
non-empty for importers; contributes no parameters. -/
def companyFilterBlock (ct : Option (List String)) (tableAlias : String) (avail : List String) :
    List String × List FParam :=
  match ct with
  | none => ([], [])
  | some companyTypes =>
    match firstPresent importerColumns avail with
    | none => ([], [])
    | some col =>
      let colExpr := "CAST(" ++ tableAlias ++ quoteId col ++ " AS VARCHAR)"
      let manu :=
        if companyTypes.contains "manufacturer" then
          ["(" ++ colExpr ++ " IS NULL OR " ++ colExpr ++ " = '')"]
        else []
      let imp :=
        if companyTypes.contains "importer" then
          ["(" ++ colExpr ++ " IS NOT NULL AND " ++ colExpr ++ " != '')"]
        else []
      let cts := manu ++ imp
      if cts.isEmpty then ([], [])
      else (["(" ++ joinSep " OR " cts ++ ")"], [])

/-- `exclude_keywords` block: per keyword a negated OR over the first
available product/company column, keywords bound lowercased as `%kw%`. -/
def excludeFilterBlock (ek : Option (List String)) (tableAlias : String) (avail : List String) :
    List String × List FParam :=
  match ek with
  | none => ([], [])
  | some kws =>
    let pcol := firstPresent productColumns avail
    let ccol := firstPresent companyColumns avail
    let per := kws.map (fun kw =>
      let e1 : List String × List FParam :=
        match pcol with
        | some c =>
            (["LOWER(CAST(" ++ tableAlias ++ quoteId c ++ " AS VARCHAR)) LIKE ?"],
             [.s ("%" ++ lowerStr kw ++ "%")])
        | none => ([], [])
      let e2 : List String × List FParam :=
        match ccol with
        | some c =>
            (["LOWER(CAST(" ++ tableAlias ++ quoteId c ++ " AS VARCHAR)) LIKE ?"],
             [.s ("%" ++ lowerStr kw ++ "%")])
        | none => ([], [])
      let ecs := e1.1 ++ e2.1
      if ecs.isEmpty then (([], []) : List String × List FParam)
      else (["NOT (" ++ joinSep " OR " ecs ++ ")"], e1.2 ++ e2.2))
    ((per.map (·.1)).flatten, (per.map (·.2)).flatten)

/-- `numeric_range` block: the field name (default `price`) is spliced into
the SQL text; only the bounds become parameters. No availability check. -/
def numericFilterBlock (nr : Option NumericRangeF) (tableAlias : String) :
    List String × List FParam :=
  match nr with
  | none => ([], [])
  | some nr =>
    let field := nr.field.getD "price"
    let c1 : List String × List FParam :=
      match nr.min with
      | some v => (["TRY_CAST(" ++ tableAlias ++ quoteId field ++ " AS DOUBLE) >= ?"], [.i v])
      | none => ([], [])
    let c2 : List String × List FParam :=
      match nr.max with
      | some v => (["TRY_CAST(" ++ tableAlias ++ quoteId field ++ " AS DOUBLE) <= ?"], [.i v])
      | none => ([], [])
    (c1.1 ++ c2.1, c1.2 ++ c2.2)

/-- `_build_filter_conditions`: AND-combination of the five optional blocks,
`1=1` when nothing applies. -/
def buildFilterConditions (filters : Option FilterSet) (tableAlias : String)
    (avail : List String) : String × List FParam :=
  match filters with
  | none => ("1=1", [])
  | some fs =>
    let blocks := [dateFilterBlock fs.dateRange tableAlias avail,
                   certFilterBlock fs.certificationType tableAlias avail,
                   companyFilterBlock fs.companyType tableAlias avail,
                   excludeFilterBlock fs.excludeKeywords tableAlias avail,
                   numericFilterBlock fs.numericRange tableAlias]
    let conds := (blocks.map (·.1)).flatten
    if conds.isEmpty then ("1=1", [])
    else (joinSep " AND " conds, (blocks.map (·.2)).flatten)

/-! ## ORDER BY selection (`search_streaming` lines 1289-1341,
`_build_date_order_expression`) -/

/-- The three source shapes `search_streaming` distinguishes when it picks
the ORDER BY: tabular (Parquet/DuckDB), nested JSON, flat JSON. -/
inductive SourceKind
  | tabular
  | nestedJson
  | flatJson
deriving DecidableEq

/-- `_build_date_order_expression`: the CASE expression parsing 8-digit and
14-digit date strings with TRY_STRPTIME and anything else with TRY_CAST. -/
def buildDateOrderExpression (fieldName : String) (tableAlias : String) : String :=
  let columnExpr := tableAlias ++ quoteId fieldName
  let trimmedExpr := "TRIM(" ++ columnExpr ++ ")"
  "CASE " ++
  "WHEN " ++ columnExpr ++ " IS NULL OR " ++ trimmedExpr ++ " = '' THEN NULL " ++
  "WHEN LENGTH(" ++ trimmedExpr ++ ") = 8 THEN TRY_STRPTIME(" ++ columnExpr ++ ", '%Y%m%d') " ++
  "WHEN LENGTH(" ++ trimmedExpr ++ ") = 14 THEN TRY_STRPTIME(" ++ columnExpr ++
    ", '%Y%m%d%H%M%S') " ++
  "ELSE TRY_CAST(" ++ columnExpr ++ " AS DATE) " ++
  "END"

def nestedSortCandidates : List String := ["productName", "제품명", "업체명", "모델명"]

def orderDateCandidates : List String :=
  ["완료일", "인증일자", "인증변경일자", "서명일자", "인증만료일자",
   "완료일자", "발급일", "만료일", "설립일",
   "cert_date", "sign_date", "cert_chg_date",
   "registration_date", "approval_date", "declaration_date", "recall_date",
   "등록일", "승인일", "신고일", "리콜일", "생성일", "수정일",
   "신고증명서 발급일", "시험성적서 만료일", "유통기한"]

def orderProductCandidates : List String :=
  ["품목", "제품명", "product_name", "업체명", "company_name", "상호", "기자재명칭",
   "모델명", "model_name"]

/-- The `order_by` value `search_streaming` computes: `None` for tabular
sources (file order is kept), a name-like candidate for nested JSON, and the
date-DESC/name-ASC heuristic with first-column fallback for flat JSON. -/
def chooseOrderBy (kind : SourceKind) (avail : List String) : Option String :=
  match kind with
  | .tabular => none
  | .nestedJson =>
    match firstPresent nestedSortCandidates avail with
    | some f => some ("item." ++ quoteId f)
    | none => some "item"
  | .flatJson =>
    let dateField := firstPresent orderDateCandidates avail
    let productField := firstPresent orderProductCandidates avail
    let parts :=
      (match dateField with
       | some d => [buildDateOrderExpression d "" ++ " DESC NULLS LAST"]
       | none => []) ++
      (match productField with
       | some p => [quoteId p ++ " ASC"]
       | none => [])
    if parts.isEmpty then
      let firstField := match avail with | [] => "1" | f :: _ => f
      some (if firstField == "1" then "1" else quoteId firstField)
    else some (joinSep ", " parts)

/-- `order_clause = f"ORDER BY {order_by}" if order_by else ""`. -/
def orderClause (ob : Option String) : String :=
  match ob with
  | some o => "ORDER BY " ++ o
  | none => ""

/-! ## `_get_file_size_mb` and the constructor's existence check

The filesystem is modelled by `statSize`: `some n` when `Path.stat()`
succeeds with `st_size = n` bytes, `none` when the file is missing or
unreachable and `stat()` raises. `Except.error` models a raised exception. -/

/-- `_get_file_size_mb`: URLs get the fixed 100 MB estimate; local paths are
stat'ed with no exception handler. -/
def getFileSizeMB (isUrl : Bool) (statSize : Option Nat) : Except Unit ℚ :=
  if isUrl then .ok 100
  else
    match statSize with
    | some sizeBytes => .ok ((sizeBytes : ℚ) / (1024 * 1024))
    | none => .error ()

/-- `DuckDBProcessor.__init__`: a local path whose file does not exist
raises `FileNotFoundError`. -/
def processorInitCheck (isUrl : Bool) (localFileExists : Bool) : Except Unit Unit :=
  if !isUrl && !localFileExists then .error () else .ok ()

/-! ## `_get_essential_columns` -/

def sortDateCandidates : List String := ["cert_date", "crawl_date", "crawled_at", "설립일"]

/-- The dedup loop: `if col and col not in seen: essential_cols.append(col)`. -/
def dedupTruthy (cols : List String) : List String :=
  cols.foldl (fun acc c => if c ≠ "" && !(acc.contains c) then acc ++ [c] else acc) []

/-- The candidate list `_get_essential_columns` assembles before filtering by
availability: configured search/display fields, the first available sort-date
column, required (download) fields, deduplicated, then the dynamically
required fields not already listed. -/
def essentialCandidates (searchCols displayCols requiredFields dynamicRequired avail :
    List String) : List String :=
  let sortCols :=
    match firstPresent sortDateCandidates avail with
    | some c => [c]
    | none => []
  let allColumns := searchCols ++ displayCols ++ sortCols ++ requiredFields
  dedupTruthy allColumns ++
    dynamicRequired.filter (fun c => c ≠ "" && !(allColumns.contains c))

/-- `_get_essential_columns`: `*` without category configuration, with an
empty available-column list or when no candidate column actually exists;
otherwise the quoted, comma-joined projection. -/
def getEssentialColumns (hasCategory : Bool)
    (searchCols displayCols requiredFields dynamicRequired avail : List String) : String :=
  if !hasCategory then "*"
  else if avail.isEmpty then "*"
  else
    let existing :=
      (essentialCandidates searchCols displayCols requiredFields dynamicRequired avail).filter
        (fun c => avail.contains c)
    if existing.isEmpty then "*"
    else joinSep ", " (existing.map quoteId)

/-! ## Schema cache (`SCHEMA_CACHE_BY_URL`/`SCHEMA_CACHE_BY_FILENAME`,
`_extract_file_name`, `_should_use_dynamic_schema`,
`_try_duckdb_blob_schema_mapping`, `_cache_schema`, `_get_available_fields`) -/

/-- The two module-global dictionaries, as association lists (later
assignments shadow earlier ones: lookup finds the most recent insert). -/
abbrev StrMap := List (String × List String)

def mapLookup (m : StrMap) (k : String) : Option (List String) :=
  (m.find? (fun p => p.1 == k)).map (·.2)

def mapInsert (m : StrMap) (k : String) (v : List String) : StrMap := (k, v) :: m

structure SchemaCacheState where
  byUrl : StrMap
  byFilename : StrMap
deriving DecidableEq

/-- `Path(p).name`: the last non-empty `/`-separated component. -/
def pathName (p : String) : String :=
  match ((splitOnChar '/' p).filter (fun s => s ≠ "")).getLast? with
  | some x => x
  | none => ""

/-- `urlparse(u).path` for an `http(s)` URL: what follows the host, up to
the query or fragment. -/
def urlPathOf (u : String) : String :=
  let afterScheme : String :=
    if startsWithStr "https://" u then ⟨u.data.drop 8⟩ else ⟨u.data.drop 7⟩
  let path : String :=
    ⟨afterScheme.data.dropWhile (fun c => !(c == '/') && !(c == '?') && !(c == '#'))⟩
  takeUntilChars ['?', '#'] path

/-- `_extract_file_name`: the bare filename of a URL or local path, `none`
for an empty input or an empty name (falsy in the callers). -/
def extractFileName (pathLike : String) : Option String :=
  if pathLike = "" then none
  else
    let nm :=
      if startsWithStr "http://" pathLike || startsWithStr "https://" pathLike then
        let p := urlPathOf pathLike
        if p = "" then "" else pathName p
      else pathName pathLike
    if nm = "" then none else some nm

/-- `dynamic_targets` of `_should_use_dynamic_schema`. -/
def dynamicTargetFiles : List String :=
  ["3_efficiency_flattened.parquet",
   "3_efficiency_flattened_success.parquet",
   "3_efficiency_flattened_failed.parquet",
   "4_high_efficiency_flattened.parquet",
   "4_high_efficiency_flattened_success.parquet",
   "4_high_efficiency_flattened_failed.parquet",
   "5_standby_power_flattened.parquet",
   "5_standby_power_flattened_success.parquet",
   "5_standby_power_flattened_failed.parquet"]

/-- `dynamic_url_patterns` of `_should_use_dynamic_schema`. -/
def dynamicUrlPatterns : List String :=
  ["/3_efficiency_flattened.parquet",
   "/3_efficiency_flattened_success.parquet",
   "/3_efficiency_flattened_failed.parquet",
   "/4_high_efficiency_flattened.parquet",
   "/4_high_efficiency_flattened_success.parquet",
   "/4_high_efficiency_flattened_failed.parquet",
   "/5_standby_power_flattened.parquet",
   "/5_standby_power_flattened_success.parquet",
   "/5_standby_power_flattened_failed.parquet"]

/-- `_should_use_dynamic_schema`: the volatile-schema (dynamic) datasets,
matched by exact filename or by URL substring. -/
def shouldUseDynamicSchema (cacheKey : String) (fileName : Option String) : Bool :=
  (match fileName with
   | some fn => dynamicTargetFiles.contains fn
   | none => false) ||
  dynamicUrlPatterns.any (fun p => pyIn p cacheKey)

/-- `dataset_patterns` of `_try_duckdb_blob_schema_mapping`, in insertion
(iteration) order. -/
def datasetPatterns : List (String × List String) :=
  [("safetykorea", ["safetykorea", "safety_korea"]),
   ("wadiz", ["wadiz", "makers"]),
   ("efficiency", ["efficiency", "energy"]),
   ("high_efficiency", ["high_efficiency", "high-efficiency"]),
   ("standby_power", ["standby_power", "standby-power"]),
   ("approval", ["approval", "approve"]),
   ("declare", ["declare", "declaration"]),
   ("kwtc", ["kwtc"]),
   ("recall", ["recall"]),
   ("safetykoreachild", ["safetykoreachild", "safety_korea_child", "child"]),
   ("rra_cert", ["rra_cert", "rra-cert"]),
   ("rra_self_cert", ["rra_self_cert", "rra-self-cert"]),
   ("safetykoreahome", ["safetykoreahome", "safety_korea_home", "home"])]

/-- The base-schema filename per dataset (the elif chain). -/
def baseR2Pattern (dataset : String) : Option String :=
  if dataset = "wadiz" then some "2_wadiz_flattened.parquet"
  else if dataset = "safetykorea" then some "1_safetykorea_flattened.parquet"
  else if dataset = "efficiency" then some "3_efficiency_flattened.parquet"
  else if dataset = "high_efficiency" then some "4_high_efficiency_flattened.parquet"
  else if dataset = "standby_power" then some "5_standby_power_flattened.parquet"
  else if dataset = "approval" then some "6_approval_flattened.parquet"
  else if dataset = "declare" then some "7_declare_flattened.parquet"
  else if dataset = "kwtc" then some "8_kwtc_flattened.parquet"
  else if dataset = "recall" then some "9_recall_flattened.parquet"
  else if dataset = "safetykoreachild" then some "10_safetykoreachild_flattened.parquet"
  else if dataset = "rra_cert" then some "11_rra_cert_flattened.parquet"
  else if dataset = "rra_self_cert" then some "12_rra_self_cert_flattened.parquet"
  else if dataset = "safetykoreahome" then some "13_safetykoreahome_flattened.parquet"
  else none

/-- The target-pattern loop at the end of `_try_duckdb_blob_schema_mapping`:
the first target with a filename-cached schema is copied to the URL cache
(and to the filename cache when the blob filename is not yet there). -/
def blobLookupTargets (cacheKey fn : String) (st : SchemaCacheState) :
    List String → Option (List String) × SchemaCacheState
  | [] => (none, st)
  | t :: ts =>
    match mapLookup st.byFilename t with
    | some schema =>
      let st1 := { st with byUrl := mapInsert st.byUrl cacheKey schema }
      let st2 :=
        if (mapLookup st1.byFilename fn).isSome then st1
        else { st1 with byFilename := mapInsert st1.byFilename fn schema }
      (some schema, st2)
    | none => blobLookupTargets cacheKey fn st ts

/-- `_try_duckdb_blob_schema_mapping`: schema inference for `.duckdb` blob
URLs by filename-pattern matching against already-cached dataset schemas. -/
def tryDuckdbBlobSchemaMapping (cacheKey : String) (fileName : Option String)
    (st : SchemaCacheState) : Option (List String) × SchemaCacheState :=
  match fileName with
  | none => (none, st)
  | some fn =>
    if cacheKey = "" then (none, st)
    else
      let isDuckdbBlob := endsWithStr ".duckdb" cacheKey &&
        (pyIn "blob.vercel-storage.com" cacheKey || pyIn "blob" (lowerStr cacheKey))
      if !isDuckdbBlob then (none, st)
      else
        let fnl := lowerStr fn
        match (datasetPatterns.find? (fun dp => dp.2.any (fun p => pyIn p fnl))).map (·.1) with
        | none => (none, st)
        | some ds =>
          let isEnhanced := pyIn "enhanced" fnl || pyIn "success" fnl || pyIn "failed" fnl
          let isSuccess := pyIn "success" fnl
          let enhancedPatterns :=
            if isEnhanced then
              [if isSuccess then ds ++ "_flattened_success.parquet"
               else ds ++ "_flattened_failed.parquet"]
            else []
          let targets := enhancedPatterns ++
            (match baseR2Pattern ds with
             | some p => [p]
             | none => [])
          blobLookupTargets cacheKey fn st targets

/-- `_cache_schema`: store under both keys, skipping volatile-schema
(dynamic) datasets entirely. (The callers never pass `None` columns.) -/
def cacheSchema (cacheKey : String) (columns : List String) (st : SchemaCacheState) :
    SchemaCacheState :=
  let fileName := extractFileName cacheKey
  if shouldUseDynamicSchema cacheKey fileName then st
  else
    let st1 :=
      if cacheKey ≠ "" then { st with byUrl := mapInsert st.byUrl cacheKey columns } else st
    match fileName with
    | some fn => { st1 with byFilename := mapInsert st1.byFilename fn columns }
    | none => st1

/-- `_get_available_fields` as a state machine over the schema caches.
`introspect` stands for the direct schema-introspection I/O of the fallback
path (`SELECT * ... LIMIT 1` + `result.description`, or the fixed JSON-URL
field list): `.ok` its columns, `.error` a raised exception (swallowed to
`[]`). The result carries the returned columns, the updated cache state and
the number of introspections performed (0 or 1). -/
def getAvailableFieldsStep (cacheKey : String) (st : SchemaCacheState)
    (introspect : Except Unit (List String)) : List String × SchemaCacheState × Nat :=
  let fileName := extractFileName cacheKey
  if shouldUseDynamicSchema cacheKey fileName then
    match introspect with
    | .ok cols => (cols, cacheSchema cacheKey cols st, 1)
    | .error _ => ([], st, 1)
  else
    match mapLookup st.byUrl cacheKey with
    | some cols => (cols, st, 0)
    | none =>
      match fileName.bind (fun fn => mapLookup st.byFilename fn) with
      | some cols => (cols, st, 0)
      | none =>
        match tryDuckdbBlobSchemaMapping cacheKey fileName st with
        | (some cols, st2) => (cols, st2, 0)
        | (none, st2) =>
          match introspect with
          | .ok cols => (cols, cacheSchema cacheKey cols st2, 1)
          | .error _ => ([], st2, 1)

/-! ## Pagination & streaming executor (`search_streaming`)

The executed windowed query is modelled by its semantics: `matching` is the
ordered list of rows satisfying the compiled predicate (each projected row
without the injected `total_count` column), `COUNT(*) OVER()` attaches
`matching.length` to every fetched row, and `LIMIT`/`OFFSET` fetch a
contiguous window. Every fetched record is a non-empty dictionary (truthy)
carrying `total_count`, matching the loop's `if record:` path. -/

/-- `effective_limit = None if limit is None or limit <= 0 else limit`. -/
def effectiveLimitOf (limit : Option Int) : Option Int :=
  match limit with
  | none => none
  | some l => if l ≤ 0 then none else some l

/-- `offset = (page - 1) * effective_limit if effective_limit else 0`. -/
def offsetOf (limit : Option Int) (page : Int) : Int :=
  match effectiveLimitOf limit with
  | some l => (page - 1) * l
  | none => 0

/-- `LIMIT`/`OFFSET` applied to the ordered matching rows. -/
def windowedPage (matching : List Row) (effLimit : Option Nat) (offset : Nat) : List Row :=
  match effLimit with
  | some l => (matching.drop offset).take l
  | none => matching.drop offset

/-- `result.fetchmany(batch_fetch_size)` until exhausted: the fetched rows in
batches. `fetchmany(0)` returns nothing, ending the loop at once. Structural
recursion on a fuel of `l.length`, which suffices: every step consumes at
least one row. -/
def chunkedFuel : Nat → List Row → Nat → List (List Row)
  | _, _, 0 => []
  | _, [], _ + 1 => []
  | 0, _ :: _, _ + 1 => []
  | f + 1, x :: xs, n + 1 => (x :: List.take n xs) :: chunkedFuel f (List.drop n xs) (n + 1)

def chunked (l : List Row) (n : Nat) : List (List Row) := chunkedFuel l.length l n

/-- The loop's mutable locals: `results`, the chunks handed to
`chunk_callback` (each with its running `total_processed`), `chunk_buffer`,
`total_processed` and `total_count_window`. -/
structure LoopSt where
  results : List Row
  chunks : List (List Row × Nat)
  buffer : List Row
  processed : Nat
  window : Option Nat
deriving DecidableEq

def limitReached (effLimit : Option Nat) (processed : Nat) : Bool :=
  match effLimit with
  | some l => decide (processed ≥ l)
  | none => false

/-- `for row in batch:` — capture and strip `total_count`, count the record,
collect it or buffer it for the sink, break once the limit is reached. -/
def processBatch (streaming : Bool) (windowVal : Nat) (effLimit : Option Nat) :
    LoopSt → List Row → LoopSt
  | st, [] => st
  | st, r :: rs =>
    let st1 : LoopSt :=
      { results := if streaming then st.results else st.results ++ [r]
        chunks := st.chunks
        buffer := if streaming then st.buffer ++ [r] else st.buffer
        processed := st.processed + 1
        window := some windowVal }
    if limitReached effLimit st1.processed then st1
    else processBatch streaming windowVal effLimit st1 rs

/-- `if streaming_mode and chunk_callback and chunk_buffer:` — hand the
buffered rows to the sink with the running count, then clear the buffer. -/
def flushChunk (streaming : Bool) (st : LoopSt) : LoopSt :=
  if streaming && !st.buffer.isEmpty then
    { st with chunks := st.chunks ++ [(st.buffer, st.processed)], buffer := [] }
  else st

/-- The `while True:` over fetched batches, flushing the sink buffer after
each batch and breaking once the limit is reached. -/
def runBatches (streaming : Bool) (windowVal : Nat) (effLimit : Option Nat) :
    LoopSt → List (List Row) → LoopSt
  | st, [] => st
  | st, b :: bs =>
    let st1 := processBatch streaming windowVal effLimit st b
    let st2 := flushChunk streaming st1
    if limitReached effLimit st2.processed then st2
    else runBatches streaming windowVal effLimit st2 bs

/-- The whole fetch loop, including the final buffer flush. -/
def executeFetchLoop (rows : List Row) (windowVal : Nat) (streaming : Bool)
    (effLimit : Option Nat) (chunkSize : Nat) : LoopSt :=
  let batchFetchSize := if streaming then chunkSize else 1000
  let st := runBatches streaming windowVal effLimit
    ⟨[], [], [], 0, none⟩ (chunked rows batchFetchSize)
  flushChunk streaming st

/-- `total_count` as `search_streaming` computes it when `count_query is
None` (always): the window value (or the processed count) when `results` is
non-empty, otherwise 0. -/
def computeTotalCount (st : LoopSt) : Nat :=
  if st.results.isEmpty then 0
  else
    match st.window with
    | some n => n
    | none => st.processed

structure Pagination where
  totalCount : Nat
  totalPages : Int
  currentPage : Int
  itemsPerPage : Int
  hasNext : Bool
  hasPrev : Bool
deriving DecidableEq

/-- The pagination metadata block of `search_streaming` (Python `//` is
floor division, `Int.fdiv`). -/
def paginationOf (totalCount : Nat) (limit : Option Int) (page : Int) : Pagination :=
  match effectiveLimitOf limit with
  | some l =>
    let totalPages := if 0 < l then ((totalCount : Int) + l - 1).fdiv l else 1
    { totalCount := totalCount
      totalPages := totalPages
      currentPage := page
      itemsPerPage := l
      hasNext := decide (page < totalPages)
      hasPrev := decide (page > 1) }
  | none =>
    { totalCount := totalCount
      totalPages := 1
      currentPage := page
      itemsPerPage := (totalCount : Int)
      hasNext := false
      hasPrev := decide (page > 1) }

/-- One `search_streaming` execution over the matching rows: the final loop
state and the pagination block of the response. -/
def searchStreamingRun (matching : List Row) (limit : Option Int) (page : Int)
    (streaming : Bool) (chunkSize : Nat) : LoopSt × Pagination :=
  let effLimitN : Option Nat := (effectiveLimitOf limit).map Int.toNat
  let offsetN : Nat := (offsetOf limit page).toNat
  let fetched := windowedPage matching effLimitN offsetN
  let st := executeFetchLoop fetched matching.length streaming effLimitN chunkSize
  (st, paginationOf (computeTotalCount st) limit page)

/-- The rows a streaming run hands to the sink, in order. -/
def sinkRows (st : LoopSt) : List Row := (st.chunks.map (·.1)).flatten

/-! ## Theorems -/

/-- C3 counterexample: a local locator whose file is missing does not report
zero size — `stat()` raises (modeled `Except.error`), and already the
constructor raises `FileNotFoundError` for a missing local file. -/
theorem local_missing_file_size_raises :
    getFileSizeMB false none = Except.error () ∧
    getFileSizeMB false none ≠ Except.ok 0 ∧
    processorInitCheck false false = Except.error () := by
  refine ⟨rfl, ?_, rfl⟩
  intro h
  simp [getFileSizeMB] at h

/-- C3 (amended): every remote locator gets the fixed 100 MB estimate and
never fails; a local locator with a successful `stat` reports its exact
size in MB; a local locator whose file is missing raises (both in
`_get_file_size_mb` and in the constructor) rather than reporting zero. -/
theorem file_size_estimator (statSize : Option Nat) (sz : Nat) :
    getFileSizeMB true statSize = Except.ok 100 ∧
    getFileSizeMB false (some sz) = Except.ok ((sz : ℚ) / (1024 * 1024)) ∧
    getFileSizeMB false none = Except.error () ∧
    processorInitCheck true false = Except.ok () ∧
    processorInitCheck false false = Except.error () :=
  ⟨rfl, rfl, rfl, rfl, rfl⟩

/-- C10: an empty keyword compiles to the constant-true clause `1=1`; a
non-business-number search field whose aliases and raw name are all absent
compiles to `1=1` as well; a business-number field with no matching column
compiles to the constant-false clause `1=0`; `1=1` matches every row and
`1=0` matches none. -/
theorem degraded_predicate_constants (kw sf : String) (avail : List String)
    (ci : String → Bool) (ta : String) :
    buildWhereClause "" sf avail ci ta = ("1=1", []) ∧
    (kw ≠ "" → sf ∉ exactMatchFields →
      (∀ f ∈ fieldMappings sf, f ∉ avail) → sf ∉ avail →
      buildWhereClause kw sf avail ci ta = ("1=1", [])) ∧
    (kw ≠ "" → sf ∈ exactMatchFields →
      (∀ f ∈ businessAliases sf, f ∉ avail) →
      buildWhereClause kw sf avail ci ta = ("1=0", [])) ∧
    (∀ row, evalWhere row WhereShape.anyRow = true) ∧
    (∀ row, evalWhere row WhereShape.noRow = false) := by
  refine ⟨?_, ?_, ?_, fun _ => rfl, fun _ => rfl⟩
  · simp [buildWhereClause, buildSearchConds, renderWhere]
  · intro h1 h2 h3 h4
    have hres : resolveSearchColumns sf avail = [] := by
      simp [resolveSearchColumns, h3, h4]
      exact fun x hx hxa => absurd hxa (h3 x hx)
    simp [buildWhereClause, buildSearchConds, renderWhere, h1, h2, hres]
  · intro h1 h2 h3
    simp [buildWhereClause, buildSearchConds, renderWhere, h1, h2]
    rw [if_pos h3]

/-- C10 witness: a business-number search over a schema without the column
returns the constant-false clause. -/
theorem degraded_predicate_constants_witness :
    buildWhereClause "kw" "business_number" ["zz"] (fun _ => true) "" = ("1=0", []) :=
  (degraded_predicate_constants "kw" "business_number" ["zz"] (fun _ => true) "").2.2.1
    (by decide) (by decide) (by decide)

/-- C7 counterexample: for the logical field `company_name`, a schema that
contains the literal column `company_name` (not an alias) makes the
raw-field fallback fire, so the resolved columns are not the intersection
of the alias list with the schema (which is empty). -/
theorem company_name_raw_fallback :
    resolveSearchColumns "company_name" ["company_name"] = ["company_name"] ∧
    (fieldMappings "company_name").filter
      (fun f => (["company_name"] : List String).contains f) = [] := by
  decide

/-- C7 (amended): when at least one alias of a supported logical field is
present, the resolved columns are exactly the present subset of the alias
list, in alias order; when none is present, the raw field name is used if
it is itself a schema column (else nothing); resolution never returns a
column absent from the schema. -/
theorem alias_resolution_subset (sf : String) (avail : List String)
    (_hsf : sf = "company_name" ∨ sf = "model_name" ∨ sf = "product_name") :
    ((fieldMappings sf).filter (fun f => avail.contains f) ≠ [] →
      resolveSearchColumns sf avail = (fieldMappings sf).filter (fun f => avail.contains f)) ∧
    ((fieldMappings sf).filter (fun f => avail.contains f) = [] →
      resolveSearchColumns sf avail = (if avail.contains sf then [sf] else [])) ∧
    (∀ c ∈ resolveSearchColumns sf avail, c ∈ avail) := by
  refine ⟨?_, ?_, ?_⟩
  · intro h
    simp only [resolveSearchColumns, List.isEmpty_iff]
    rw [if_neg h]
  · intro h
    simp only [resolveSearchColumns, List.isEmpty_iff]
    rw [if_pos h]
  · intro c hc
    simp only [resolveSearchColumns, List.isEmpty_iff] at hc
    split at hc
    · split at hc
      · next hmem =>
        simp only [List.mem_singleton] at hc
        subst hc
        simpa using hmem
      · simp at hc
    · have := List.mem_filter.mp hc
      simpa using this.2

/-- C7 witness: with one alias present, resolution returns exactly it. -/
theorem alias_resolution_subset_witness :
    resolveSearchColumns "company_name" ["업체명", "x"] =
      (fieldMappings "company_name").filter
        (fun f => (["업체명", "x"] : List String).contains f) :=
  (alias_resolution_subset "company_name" ["업체명", "x"] (Or.inl rfl)).1 (by decide)

/-- C2 counterexample: a tabular (Parquet/DuckDB) source gets no ORDER BY at
all (`order_by = None`, empty order clause) even though the first date-like
candidate `cert_date` is available, contradicting the claim that the
date-descending ORDER BY is chosen for every source kind. -/
theorem tabular_source_no_order_by :
    chooseOrderBy SourceKind.tabular ["cert_date", "product_name"] = none ∧
    orderClause (chooseOrderBy SourceKind.tabular ["cert_date", "product_name"]) = "" ∧
    firstPresent orderDateCandidates ["cert_date", "product_name"] = some "cert_date" := by
  decide

/-- C2 (amended): the date-parsing ORDER BY heuristic applies only to the
flat-JSON fallback: there, the first available date-like candidate orders
descending through the CASE date-parsing expression (NULLS LAST) with the
first available name-like candidate ascending as tiebreak; without a date
candidate the name-like candidate alone is used, and only when neither
exists does the first schema column (or the literal `1`) serve as order.
Tabular sources get no ORDER BY; nested JSON orders by the first available
name-like candidate. -/
theorem order_by_heuristic (avail : List String) :
    chooseOrderBy SourceKind.tabular avail = none ∧
    (∀ d p, firstPresent orderDateCandidates avail = some d →
      firstPresent orderProductCandidates avail = some p →
      chooseOrderBy SourceKind.flatJson avail =
        some (buildDateOrderExpression d "" ++ " DESC NULLS LAST" ++ ", " ++
          (quoteId p ++ " ASC"))) ∧
    (∀ d, firstPresent orderDateCandidates avail = some d →
      firstPresent orderProductCandidates avail = none →
      chooseOrderBy SourceKind.flatJson avail =
        some (buildDateOrderExpression d "" ++ " DESC NULLS LAST")) ∧
    (∀ p, firstPresent orderDateCandidates avail = none →
      firstPresent orderProductCandidates avail = some p →
      chooseOrderBy SourceKind.flatJson avail = some (quoteId p ++ " ASC")) ∧
    (firstPresent orderDateCandidates avail = none →
      firstPresent orderProductCandidates avail = none →
      chooseOrderBy SourceKind.flatJson avail =
        some (match avail with
          | [] => "1"
          | f :: _ => if f == "1" then "1" else quoteId f)) ∧
    (∀ f, firstPresent nestedSortCandidates avail = some f →
      chooseOrderBy SourceKind.nestedJson avail = some ("item." ++ quoteId f)) := by
  refine ⟨rfl, ?_, ?_, ?_, ?_, ?_⟩
  · intro d p hd hp
    simp [chooseOrderBy, hd, hp, joinSep]
  · intro d hd hp
    simp [chooseOrderBy, hd, hp, joinSep]
  · intro p hd hp
    simp [chooseOrderBy, hd, hp, joinSep]
  · intro hd hp
    cases avail with
    | nil => simp [chooseOrderBy, hd, hp]
    | cons f fs => simp [chooseOrderBy, hd, hp]
  · intro f hf
    simp [chooseOrderBy, hf]

set_option maxRecDepth 8000 in
/-- C2 witness: over a flat-JSON schema holding `cert_date` and `업체명`,
the chosen ORDER BY is the date CASE expression descending with the company
name ascending. -/
theorem order_by_heuristic_witness :
    chooseOrderBy SourceKind.flatJson ["cert_date", "업체명"] =
      some (buildDateOrderExpression "cert_date" "" ++ " DESC NULLS LAST" ++ ", " ++
        (quoteId "업체명" ++ " ASC")) :=
  (order_by_heuristic ["cert_date", "업체명"]).2.1 "cert_date" "업체명"
    (by decide) (by decide)

/-- C8: a failed schema introspection is swallowed into an empty column
list (whenever the step actually introspects, a failure yields `[]`); and
the projection builder returns the wildcard `*` when the available-column
list is empty or when no configured/required column is present in it. -/
theorem schema_unresolvable_degradation :
    (∀ (cacheKey : String) (st : SchemaCacheState),
      (getAvailableFieldsStep cacheKey st (Except.error ())).2.2 = 1 →
      (getAvailableFieldsStep cacheKey st (Except.error ())).1 = []) ∧
    (∀ (hasCat : Bool) (sc dc rf dyf : List String),
      getEssentialColumns hasCat sc dc rf dyf [] = "*") ∧
    (∀ (hasCat : Bool) (sc dc rf dyf avail : List String),
      (essentialCandidates sc dc rf dyf avail).filter (fun c => avail.contains c) = [] →
      getEssentialColumns hasCat sc dc rf dyf avail = "*") := by
  refine ⟨?_, ?_, ?_⟩
  · intro ck st h
    by_cases hdyn : shouldUseDynamicSchema ck (extractFileName ck) = true
    · simp [getAvailableFieldsStep, hdyn]
    · cases h1 : mapLookup st.byUrl ck with
      | some cols => exfalso; simp [getAvailableFieldsStep, hdyn, h1] at h
      | none =>
        cases h2 : (extractFileName ck).bind (fun fn => mapLookup st.byFilename fn) with
        | some cols => exfalso; simp [getAvailableFieldsStep, hdyn, h1, h2] at h
        | none =>
          cases h3 : tryDuckdbBlobSchemaMapping ck (extractFileName ck) st with
          | mk fst snd =>
            cases fst with
            | some cols => exfalso; simp [getAvailableFieldsStep, hdyn, h1, h2, h3] at h
            | none => simp [getAvailableFieldsStep, hdyn, h1, h2, h3]
  · intro hasCat sc dc rf dyf
    cases hasCat <;> rfl
  · intro hasCat sc dc rf dyf avail h
    cases hasCat
    · rfl
    · simp only [getEssentialColumns, Bool.not_true, Bool.false_eq_true, if_false, h]
      split
      · rfl
      · simp [h]

/-- C8 witness: over a schema where none of the configured columns exists,
the projection is the wildcard. -/
theorem schema_unresolvable_degradation_witness :
    getEssentialColumns true ["a"] [] [] [] ["z"] = "*" :=
  schema_unresolvable_degradation.2.2 true ["a"] [] [] [] ["z"] (by decide)

/-- C4 counterexample: `cert_no` is routed to the exact-match `=` policy by
`_get_search_pattern_and_operator`, but the generated predicate compares the
literal keyword with no hyphen/space stripping on either side: keyword
`AB-1` fails to match stored value `AB1` although both strip to `AB1`. -/
theorem cert_field_equality_unstripped :
    buildWhereClause "AB-1" "cert_no" ["cert_no"] (fun _ => false) "" =
      ("CAST(\"cert_no\" AS VARCHAR) = ?", ["AB-1"]) ∧
    evalWhere [("cert_no", some "AB1")]
      (buildSearchConds "AB-1" "cert_no" ["cert_no"] (fun _ => false)) = false ∧
    stripHyphenSpace "AB-1" = stripHyphenSpace "AB1" := by
  decide

/-- C4 (amended): only the business-registration-number fields
(`business_number`, `사업자등록번호`, `ftc_business_number`) match with
hyphens and spaces stripped from both the keyword and the stored value (a
row matches iff some available alias column strips to the stripped
keyword); the cert/declare-number fields routed to `=` by
`_get_search_pattern_and_operator` compare the literal keyword with no
stripping. -/
theorem exact_match_stripping_policy (kw sf : String) (avail : List String)
    (ci : String → Bool) (row : Row) (hkw : kw ≠ "") :
    (sf ∈ exactMatchFields →
      (evalWhere row (buildSearchConds kw sf avail ci) = true ↔
        ∃ f ∈ (businessAliases sf).filter (fun g => avail.contains g),
          ∃ v, rowGet row f = some v ∧ stripHyphenSpace v = stripHyphenSpace kw)) ∧
    (∀ f, sf ∉ exactMatchFields → resolveSearchColumns sf avail = [f] →
      f ∈ certExactFields →
      (evalWhere row (buildSearchConds kw sf avail ci) = true ↔
        rowGet row f = some kw)) := by
  constructor
  · intro hsf
    simp only [buildSearchConds, if_neg hkw]
    rw [if_pos (by simpa using hsf)]
    by_cases hp : ((businessAliases sf).filter (fun g => avail.contains g)).isEmpty
    · have hnil : (businessAliases sf).filter (fun g => avail.contains g) = [] := by
        simpa [List.isEmpty_iff] using hp
      rw [if_pos hp, hnil]
      simp [evalWhere]
    · rw [if_neg hp]
      simp only [evalWhere, List.any_eq_true, List.mem_map]
      constructor
      · rintro ⟨x, ⟨f, hf, rfl⟩, hx⟩
        refine ⟨f, hf, ?_⟩
        revert hx
        cases hv : rowGet row f <;> simp [evalSearchCond, hv]
      · rintro ⟨f, hf, v, hv, hs⟩
        exact ⟨(SearchCond.eqStripped f, stripHyphenSpace kw), ⟨f, hf, rfl⟩,
          by simp [evalSearchCond, hv, hs]⟩
  · intro f hn hres hcert
    simp only [buildSearchConds, if_neg hkw]
    rw [if_neg (by simpa using hn), hres]
    have hpo : getSearchPatternAndOperator kw f = (kw, SqlOp.eq) := by
      simp [getSearchPatternAndOperator, hcert]
    simp only [List.map_cons, List.map_nil, hpo]
    simp only [evalWhere, List.any_cons, List.any_nil, Bool.or_false]
    have hop : (SqlOp.eq == SqlOp.like) = false := rfl
    cases hv : rowGet row f with
    | none => simp [evalSearchCond, hv, hop]
    | some v => simp [evalSearchCond, hv, hop]

/-- C4 witness: a business-registration search with keyword `12345678`
matches a row whose `business_number` is stored as `123-45 678`. -/
theorem exact_match_stripping_policy_witness :
    evalWhere [("business_number", some "123-45 678")]
      (buildSearchConds "12345678" "business_number" ["business_number"]
        (fun _ => false)) = true ↔
    ∃ f ∈ (businessAliases "business_number").filter
        (fun g => (["business_number"] : List String).contains g),
      ∃ v, rowGet [("business_number", some "123-45 678")] f = some v ∧
        stripHyphenSpace v = stripHyphenSpace "12345678" :=
  (exact_match_stripping_policy "12345678" "business_number" ["business_number"]
    (fun _ => false) [("business_number", some "123-45 678")] (by decide)).1
    (by decide)

/-- C5: `total_pages` is the ceiling of `total_count / limit` for a positive
limit and 1 otherwise; `has_next` is `page < total_pages` (given pages start
at 1) and `has_prev` is `page > 1`; in particular total_count=5, limit=2
gives total_pages=3 with has_next/has_prev true/false on page 1 and
false/true on page 3. -/
theorem pagination_metadata_formulas (tc : Nat) (limit : Option Int) (page : Int)
    (hp : 1 ≤ page) :
    (∀ l : Int, limit = some l → 0 < l →
      (paginationOf tc limit page).totalPages = ((tc ⌈/⌉ l.toNat : Nat) : Int)) ∧
    (effectiveLimitOf limit = none → (paginationOf tc limit page).totalPages = 1) ∧
    ((paginationOf tc limit page).hasNext = true ↔
      page < (paginationOf tc limit page).totalPages) ∧
    ((paginationOf tc limit page).hasPrev = true ↔ 1 < page) ∧
    paginationOf 5 (some 2) 1 =
      { totalCount := 5, totalPages := 3, currentPage := 1, itemsPerPage := 2,
        hasNext := true, hasPrev := false } ∧
    (paginationOf 5 (some 2) 3).hasNext = false ∧
    (paginationOf 5 (some 2) 3).hasPrev = true := by
  refine ⟨?_, ?_, ?_, ?_, by decide, by decide, by decide⟩
  · rintro l rfl hl
    obtain ⟨L, rfl⟩ : ∃ L : Nat, l = (L : Int) := ⟨l.toNat, by omega⟩
    have hv : effectiveLimitOf (some ((L : Nat) : Int)) = some (L : Int) := by
      simp [effectiveLimitOf, not_le.mpr hl]
    simp only [paginationOf, hv]
    rw [if_pos hl]
    have e1 : (tc : Int) + (L : Int) - 1 = ((tc + L - 1 : Nat) : Int) := by omega
    have htn : ((L : Int)).toNat = L := rfl
    rw [e1, htn, ← Int.ofNat_fdiv, Nat.ceilDiv_eq_add_pred_div]
  · intro h
    simp [paginationOf, h]
  · cases hv : effectiveLimitOf limit with
    | none =>
      simp only [paginationOf, hv]
      constructor
      · intro h; exact absurd h (by simp)
      · intro h; omega
    | some l => simp [paginationOf, hv]
  · cases hv : effectiveLimitOf limit with
    | none => simp [paginationOf, hv]
    | some l => simp [paginationOf, hv]

/-- C5 witness: the concrete example of the claim at page 1. -/
theorem pagination_metadata_formulas_witness :
    paginationOf 5 (some 2) 1 =
      { totalCount := 5, totalPages := 3, currentPage := 1, itemsPerPage := 2,
        hasNext := true, hasPrev := false } :=
  (pagination_metadata_formulas 5 (some 2) 1 (by decide)).2.2.2.2.1

lemma mapLookup_insert (m : StrMap) (k : String) (v : List String) :
    mapLookup (mapInsert m k v) k = some v := by
  simp [mapLookup, mapInsert, List.find?]

/-- A successful non-dynamic `_cache_schema` makes the by-locator cache hit. -/
lemma cacheSchema_hit (cacheKey : String) (cols : List String) (st : SchemaCacheState)
    (hdyn : shouldUseDynamicSchema cacheKey (extractFileName cacheKey) = false)
    (hck : cacheKey ≠ "") :
    mapLookup (cacheSchema cacheKey cols st).byUrl cacheKey = some cols := by
  simp only [cacheSchema, hdyn, Bool.false_eq_true, if_false]
  rw [if_pos hck]
  cases extractFileName cacheKey with
  | none => exact mapLookup_insert _ _ _
  | some fn => exact mapLookup_insert _ _ _

/-- C6: for a non-volatile locator starting from a cold cache (no entry
under either key, blob mapping silent), the first `getAvailableFields`
introspects exactly once and stores the schema under both keys, and the
second call is served from the cache with zero introspections regardless of
its introspection outcome; for a volatile (dynamic-schema) locator, every
call introspects, the cache state is never written (it is returned
unchanged) and never read (the result is the introspection's alone, for
every cache state). -/
theorem schema_cache_correctness :
    (∀ (cacheKey : String) (st : SchemaCacheState) (cols : List String)
        (i2 : Except Unit (List String)),
      cacheKey ≠ "" →
      shouldUseDynamicSchema cacheKey (extractFileName cacheKey) = false →
      mapLookup st.byUrl cacheKey = none →
      (extractFileName cacheKey).bind (fun fn => mapLookup st.byFilename fn) = none →
      tryDuckdbBlobSchemaMapping cacheKey (extractFileName cacheKey) st = (none, st) →
      getAvailableFieldsStep cacheKey st (Except.ok cols) =
        (cols, cacheSchema cacheKey cols st, 1) ∧
      getAvailableFieldsStep cacheKey (cacheSchema cacheKey cols st) i2 =
        (cols, cacheSchema cacheKey cols st, 0)) ∧
    (∀ (cacheKey : String) (st : SchemaCacheState) (cols : List String),
      shouldUseDynamicSchema cacheKey (extractFileName cacheKey) = true →
      getAvailableFieldsStep cacheKey st (Except.ok cols) = (cols, st, 1) ∧
      getAvailableFieldsStep cacheKey st (Except.error ()) = ([], st, 1)) := by
  constructor
  · intro ck st cols i2 hck hdyn h1 h2 hblob
    constructor
    · simp [getAvailableFieldsStep, hdyn, h1, h2, hblob]
    · simp [getAvailableFieldsStep, hdyn, cacheSchema_hit ck cols st hdyn hck]
  · intro ck st cols hdyn
    constructor
    · simp [getAvailableFieldsStep, hdyn, cacheSchema]
    · simp [getAvailableFieldsStep, hdyn]

set_option maxRecDepth 4000 in
/-- C6 witness: a cold-cache run over a local non-volatile parquet locator:
the first call introspects once and caches, the second call answers from
the cache with no introspection even though its own introspection would
fail. -/
theorem schema_cache_correctness_witness :
    getAvailableFieldsStep "/data/1_safetykorea_flattened.parquet"
      (cacheSchema "/data/1_safetykorea_flattened.parquet" ["a", "b"] ⟨[], []⟩)
      (Except.error ()) =
      (["a", "b"],
       cacheSchema "/data/1_safetykorea_flattened.parquet" ["a", "b"] ⟨[], []⟩, 0) :=
  (schema_cache_correctness.1 "/data/1_safetykorea_flattened.parquet" ⟨[], []⟩ ["a", "b"]
    (Except.error ()) (by decide) (by decide) (by decide) (by decide) (by decide)).2

/-- C9 counterexample: two filter sets differing only in the value of
`numeric_range['field']` compile to different SQL texts — the field value
is spliced into the SQL string rather than bound as a parameter. -/
theorem numeric_range_field_interpolated :
    (buildFilterConditions
        (some ⟨none, none, none, none, some ⟨some "price", some 1, none⟩⟩) "" []).1 ≠
      (buildFilterConditions
        (some ⟨none, none, none, none, some ⟨some "x", some 1, none⟩⟩) "" []).1 ∧
    pyIn "price"
      (buildFilterConditions
        (some ⟨none, none, none, none, some ⟨some "price", some 1, none⟩⟩) "" []).1 = true := by
  decide

/-- The aspects of a filter set the generated SQL text may depend on: which
optional entries are present, how many certification types and exclude
keywords there are, which company types are named, and the numeric-range
field name. -/
structure FilterShape where
  date : Option (Bool × Bool)
  cert : Option Nat
  company : Option (Bool × Bool)
  exclude : Option Nat
  numeric : Option (String × Bool × Bool)
deriving DecidableEq

def filterShape : Option FilterSet → Option FilterShape
  | none => none
  | some fs =>
    some ⟨fs.dateRange.map (fun dr => (dr.start.isSome, dr.stop.isSome)),
      fs.certificationType.map List.length,
      fs.companyType.map (fun l => (l.contains "manufacturer", l.contains "importer")),
      fs.excludeKeywords.map List.length,
      fs.numericRange.map (fun nr => (nr.field.getD "price", nr.min.isSome, nr.max.isSome))⟩

lemma map_constFun {α β : Type} (l : List α) (c : β) :
    l.map (fun _ => c) = List.replicate l.length c := by
  induction l with
  | nil => rfl
  | cons x xs ih => simp [ih, List.replicate_succ]

lemma map_fst_pair_const {α β γ : Type} (l : List α) (c : β) (g : α → γ) :
    l.map ((fun x => x.1) ∘ fun a => (c, g a)) = List.replicate l.length c := by
  induction l with
  | nil => rfl
  | cons x xs ih => simp [ih, List.replicate_succ, Function.comp]

lemma dateBlock_text_eq (d1 d2 : Option DateRangeF) (ta : String) (avail : List String)
    (h : d1.map (fun dr => (dr.start.isSome, dr.stop.isSome)) =
      d2.map (fun dr => (dr.start.isSome, dr.stop.isSome))) :
    (dateFilterBlock d1 ta avail).1 = (dateFilterBlock d2 ta avail).1 := by
  cases d1 with
  | none => cases d2 with
    | none => rfl
    | some dr2 => simp at h
  | some dr1 =>
    cases d2 with
    | none => simp at h
    | some dr2 =>
      simp only [Option.map_some', Option.some.injEq, Prod.mk.injEq] at h
      obtain ⟨hs, ht⟩ := h
      simp only [dateFilterBlock]
      cases hcol : firstPresent dateFilterColumns avail with
      | none => rfl
      | some col =>
        cases hA : dr1.start <;> cases hB : dr2.start <;>
          cases hC : dr1.stop <;> cases hD : dr2.stop <;>
            simp_all

lemma certBlock_text_eq (c1 c2 : Option (List String)) (ta : String) (avail : List String)
    (h : c1.map List.length = c2.map List.length) :
    (certFilterBlock c1 ta avail).1 = (certFilterBlock c2 ta avail).1 := by
  cases c1 with
  | none => cases c2 with
    | none => rfl
    | some l2 => simp at h
  | some l1 =>
    cases c2 with
    | none => simp at h
    | some l2 =>
      simp only [Option.map_some', Option.some.injEq] at h
      have he : l1.isEmpty = l2.isEmpty := by
        cases l1 <;> cases l2 <;> simp_all
      simp only [certFilterBlock, he]
      by_cases h2 : l2.isEmpty
      · simp [h2]
      · simp only [h2, Bool.false_eq_true, if_false]
        cases hcol : firstPresent certFilterColumns avail with
        | none => rfl
        | some col => simp [map_constFun, h]

lemma companyBlock_text_eq (c1 c2 : Option (List String)) (ta : String) (avail : List String)
    (h : c1.map (fun l => (l.contains "manufacturer", l.contains "importer")) =
      c2.map (fun l => (l.contains "manufacturer", l.contains "importer"))) :
    (companyFilterBlock c1 ta avail).1 = (companyFilterBlock c2 ta avail).1 := by
  cases c1 with
  | none => cases c2 with
    | none => rfl
    | some l2 => simp at h
  | some l1 =>
    cases c2 with
    | none => simp at h
    | some l2 =>
      simp only [Option.map_some', Option.some.injEq, Prod.mk.injEq] at h
      obtain ⟨hm, hi⟩ := h
      simp only [companyFilterBlock]
      rw [hm, hi]

lemma excludeBlock_text_eq (e1 e2 : Option (List String)) (ta : String) (avail : List String)
    (h : e1.map List.length = e2.map List.length) :
    (excludeFilterBlock e1 ta avail).1 = (excludeFilterBlock e2 ta avail).1 := by
  cases e1 with
  | none => cases e2 with
    | none => rfl
    | some l2 => simp at h
  | some l1 =>
    cases e2 with
    | none => simp at h
    | some l2 =>
      simp only [Option.map_some', Option.some.injEq] at h
      simp only [excludeFilterBlock]
      cases hp : firstPresent productColumns avail <;>
        cases hc : firstPresent companyColumns avail <;>
          simp [map_constFun, map_fst_pair_const, h, Function.comp]

lemma numericBlock_text_eq (n1 n2 : Option NumericRangeF) (ta : String)
    (h : n1.map (fun nr => (nr.field.getD "price", nr.min.isSome, nr.max.isSome)) =
      n2.map (fun nr => (nr.field.getD "price", nr.min.isSome, nr.max.isSome))) :
    (numericFilterBlock n1 ta).1 = (numericFilterBlock n2 ta).1 := by
  cases n1 with
  | none => cases n2 with
    | none => rfl
    | some nr2 => simp at h
  | some nr1 =>
    cases n2 with
    | none => simp at h
    | some nr2 =>
      simp only [Option.map_some', Option.some.injEq, Prod.mk.injEq] at h
      obtain ⟨hf, hmin, hmax⟩ := h
      simp only [numericFilterBlock, hf]
      cases hA : nr1.min <;> cases hB : nr2.min <;>
        cases hC : nr1.max <;> cases hD : nr2.max <;>
          simp_all

/-- Two condition lists with the same rendered heads produce the same
clause text (renderWhere keeps parameters out of the text). -/
lemma renderWhere_conds_text_eq (ta : String) {cs1 cs2 : List (SearchCond × String)}
    (hheads : cs1.map (·.1) = cs2.map (·.1)) :
    (renderWhere ta (if cs1.isEmpty then WhereShape.anyRow else WhereShape.conds cs1)).1 =
      (renderWhere ta (if cs2.isEmpty then WhereShape.anyRow else WhereShape.conds cs2)).1 := by
  have hemp : cs1.isEmpty = cs2.isEmpty := by
    cases cs1 <;> cases cs2 <;> simp_all
  rw [hemp]
  by_cases h : cs2.isEmpty
  · rw [if_pos h, if_pos h]
  · rw [if_neg h, if_neg h]
    simp only [renderWhere]
    have e : ∀ cs : List (SearchCond × String),
        cs.map (fun c => renderSearchCond ta c.1) =
          (cs.map (·.1)).map (renderSearchCond ta) := by
      intro cs
      rw [List.map_map]
      rfl
    rw [e, e, hheads]

/-- The search-clause text never depends on the (non-empty) keyword. -/
lemma whereText_keyword_indep (kw1 kw2 sf : String) (avail : List String)
    (ci : String → Bool) (ta : String) (h1 : kw1 ≠ "") (h2 : kw2 ≠ "") :
    (buildWhereClause kw1 sf avail ci ta).1 = (buildWhereClause kw2 sf avail ci ta).1 := by
  simp only [buildWhereClause, buildSearchConds, if_neg h1, if_neg h2]
  by_cases hex : exactMatchFields.contains sf = true
  · rw [if_pos hex, if_pos hex]
    by_cases hp : ((businessAliases sf).filter (fun f => avail.contains f)).isEmpty
    · rw [if_pos hp, if_pos hp]
    · rw [if_neg hp, if_neg hp]
      simp only [renderWhere, List.map_map]
      rfl
  · rw [if_neg hex, if_neg hex]
    apply renderWhere_conds_text_eq
    rw [List.map_map, List.map_map]
    apply List.map_congr_left
    intro f _
    have hop1 : (SqlOp.eq == SqlOp.like) = false := rfl
    have hop2 : (SqlOp.like == SqlOp.like) = true := rfl
    by_cases hcf : f ∈ certExactFields
    · simp [getSearchPatternAndOperator, hcf, hop1, Function.comp]
    · by_cases hci : ci f <;>
        simp [getSearchPatternAndOperator, hcf, hci, hop1, hop2, Function.comp]

/-- C9 (amended): the generated SQL text is independent of the bound
values — for non-empty keywords the search clause is character-identical
across keywords, and two filter sets with the same shape (same present
entries, same certification-type and exclude-keyword counts, same company
types, same numeric-range field name) compile to character-identical filter
clauses; the comparison values surface only in the bound-parameter lists.
(The numeric-range field name, by contrast, is spliced into the text, per
the counterexample.) -/
theorem sql_text_value_independent (kw1 kw2 sf : String) (avail : List String)
    (ci : String → Bool) (ta : String) (f1 f2 : Option FilterSet)
    (h1 : kw1 ≠ "") (h2 : kw2 ≠ "") (hf : filterShape f1 = filterShape f2) :
    (buildWhereClause kw1 sf avail ci ta).1 = (buildWhereClause kw2 sf avail ci ta).1 ∧
    (buildFilterConditions f1 ta avail).1 = (buildFilterConditions f2 ta avail).1 := by
  refine ⟨whereText_keyword_indep kw1 kw2 sf avail ci ta h1 h2, ?_⟩
  cases f1 with
  | none => cases f2 with
    | none => rfl
    | some fs2 => simp [filterShape] at hf
  | some fs1 =>
    cases f2 with
    | none => simp [filterShape] at hf
    | some fs2 =>
      simp only [filterShape, Option.some.injEq, FilterShape.mk.injEq] at hf
      obtain ⟨hd, hc, hco, he, hn⟩ := hf
      have hDa := dateBlock_text_eq fs1.dateRange fs2.dateRange ta avail hd
      have hCe := certBlock_text_eq fs1.certificationType fs2.certificationType ta avail hc
      have hCo := companyBlock_text_eq fs1.companyType fs2.companyType ta avail hco
      have hEx := excludeBlock_text_eq fs1.excludeKeywords fs2.excludeKeywords ta avail he
      have hNu := numericBlock_text_eq fs1.numericRange fs2.numericRange ta hn
      simp only [buildFilterConditions, List.map_cons, List.map_nil]
      rw [hDa, hCe, hCo, hEx, hNu]
      split <;> rfl

/-- C9 witness: same filter shape, different date bound and keyword — the
compiled texts coincide. -/
theorem sql_text_value_independent_witness :
    (buildWhereClause "acme" "company_name" ["업체명", "cert_date"] (fun _ => true) "").1 =
      (buildWhereClause "other" "company_name" ["업체명", "cert_date"] (fun _ => true) "").1 ∧
    (buildFilterConditions
        (some ⟨some ⟨some "2024-01-01", none⟩, none, none, none, none⟩) ""
        ["업체명", "cert_date"]).1 =
      (buildFilterConditions
        (some ⟨some ⟨some "2025-12-31", none⟩, none, none, none, none⟩) ""
        ["업체명", "cert_date"]).1 :=
  sql_text_value_independent "acme" "other" "company_name" ["업체명", "cert_date"]
    (fun _ => true) ""
    (some ⟨some ⟨some "2024-01-01", none⟩, none, none, none, none⟩)
    (some ⟨some ⟨some "2025-12-31", none⟩, none, none, none, none⟩)
    (by decide) (by decide) (by decide)

set_option maxRecDepth 4000 in
/-- C1 (code-bug exhibit): on one matching row with `limit=None`, streaming
mode hands the row to the sink yet reports `pagination.total_count = 0`
(its `results` list stays empty, so the `if results:` guard zeroes the
count), while collect mode over the same rows reports `total_count = 1`. -/
theorem streaming_total_count_zero_bug :
    (searchStreamingRun [[("company_name", some "Acme")]] none 1 true 1000).2.totalCount = 0 ∧
    (searchStreamingRun [[("company_name", some "Acme")]] none 1 false 1000).2.totalCount = 1 ∧
    sinkRows (searchStreamingRun [[("company_name", some "Acme")]] none 1 true 1000).1 =
      [[("company_name", some "Acme")]] ∧
    (searchStreamingRun [[("company_name", some "Acme")]] none 1 false 1000).1.results =
      [[("company_name", some "Acme")]] := by
  exact ⟨by decide, by decide, by decide, by decide⟩

end RRAData
